import Mathlib

/-!
Shallow embedding of the RESTful-blog application (src/main.py): the data
model (User, BlogPost, Comment), the credential store, the request identity,
the admin-only authorization guard, and the route handlers that the verified
claims concern.  Route handlers become pure functions from an explicit
database state (plus the request inputs the framework would supply: form
validity, form fields, the current identity, the request URL, the current
date string) to a result holding the new database state, the identity after
the request, the flash messages set, and the HTTP-level response.
-/

namespace RestBlog

/-- Modelled from the spec: the credential store of section 4.1.  The code
calls werkzeug, an external library not part of this repository, at
src/main.py lines 181-185 (generate_password_hash with method
pbkdf2:sha256) and line 215 (check_password_hash).  A werkzeug hash is the
triple method, salt, digest (serialized as the method-dollar-salt-dollar-digest
string); verification re-derives the digest from the stored salt and the
candidate password and compares.  The keyed derivation itself is modelled as
an ideal collision-free function of salt and password: injectivity in the
password stands in for the collision-freeness the spec assumes of a
PBKDF2-class algorithm. -/
structure PwHash where
  method : String
  salt : String
  digest : String
deriving Repr, DecidableEq

/-- Modelled from the spec: the ideal keyed derivation underlying the
credential store; injective in the password for a fixed salt. -/
def kdf (salt password : String) : String :=
  salt ++ ":" ++ password

/-- Modelled from the spec: werkzeug generate_password_hash with method
pbkdf2:sha256 and a freshly drawn salt (passed here explicitly). -/
def generate_password_hash (salt password : String) : PwHash :=
  ⟨"pbkdf2:sha256", salt, kdf salt password⟩

/-- Modelled from the spec: werkzeug check_password_hash, which re-derives
the digest from the stored salt and compares. -/
def check_password_hash (pwhash : PwHash) (password : String) : Bool :=
  pwhash.digest == kdf pwhash.salt password

/-- The serialized form of a stored hash, as it sits in the password column
of the users table. -/
def PwHash.render (h : PwHash) : String :=
  h.method ++ "$" ++ h.salt ++ "$" ++ h.digest

/-- The users table (src/main.py lines 59-70): id primary key, unique email,
hashed password, display name.  The password column stores the credential
hash, kept here in parsed form (its serialization is PwHash.render). -/
structure User where
  id : Nat
  email : String
  password : PwHash
  name : String
deriving Repr, DecidableEq

/-- The blog_posts table (src/main.py lines 40-56): id primary key,
nullable author foreign key, unique title, subtitle, date string, body,
image URL. -/
structure BlogPost where
  id : Nat
  author_id : Option Nat
  title : String
  subtitle : String
  date : String
  body : String
  img_url : String
deriving Repr, DecidableEq

/-- The comments table (src/main.py lines 72-86): id primary key, nullable
author foreign key, nullable parent-post foreign key, text. -/
structure Comment where
  id : Nat
  author_id : Option Nat
  post_id : Option Nat
  text : String
deriving Repr, DecidableEq

/-- The persisted store: the three tables. -/
structure DB where
  users : List User
  posts : List BlogPost
  comments : List Comment
deriving Repr, DecidableEq

/-- The caller identity resolved by flask_login: anonymous, or the id of a
logged-in user. -/
inductive Identity where
  | Anonymous
  | Authenticated (userId : Nat)
deriving Repr, DecidableEq

/-- Outcome of the admin_only guard (src/main.py lines 98-109): run the
wrapped handler, redirect to login carrying the requested URL, or abort
with 403. -/
inductive GuardResult where
  | Allow
  | DenyWithRedirect (target : String) (next : String)
  | DenyForbidden (code : Nat)
deriving Repr, DecidableEq

/-- HTTP-level outcome of a handler: a redirect, a redirect carrying a next
URL, a template render, an abort code, or an exception that no handler
catches (it propagates as a request failure). -/
inductive Response where
  | Redirect (target : String)
  | RedirectNext (target : String) (next : String)
  | Render (template : String)
  | Forbidden (code : Nat)
  | UnhandledError (msg : String)
deriving Repr, DecidableEq

/-- What a request leaves behind: the database, the session identity, the
flash messages set during the request, and the response. -/
structure HandlerResult where
  db : DB
  identity : Identity
  flashes : List String
  response : Response
deriving Repr, DecidableEq

/-- Autoincrement primary key: one more than the largest id in use. -/
def nextId (ids : List Nat) : Nat :=
  ids.foldr max 0 + 1

/-- User.query.filter_by(email=email).first() — the first user whose email
matches (src/main.py lines 177 and 212); also the repository operation the
spec names findUserByEmail. -/
def findUserByEmail (db : DB) (email : String) : Option User :=
  db.users.find? (fun u => u.email == email)

/-- The admin_only guard (src/main.py lines 98-109): not authenticated gives
a redirect to login carrying the requested URL; an authenticated id other
than 1 gives 403; id 1 proceeds. -/
def admin_only (identity : Identity) (requestUrl : String) : GuardResult :=
  match identity with
  | .Anonymous => .DenyWithRedirect "login" requestUrl
  | .Authenticated uid => if uid != 1 then .DenyForbidden 403 else .Allow

/-- The admin_only decorator applied to a handler body: the guard decides,
and on Allow the body runs with the authenticated user id (current_user.id)
in scope. -/
def withAdminOnly (db : DB) (identity : Identity) (requestUrl : String)
    (f : Nat → HandlerResult) : HandlerResult :=
  match identity with
  | .Anonymous => ⟨db, identity, [], .RedirectNext "login" requestUrl⟩
  | .Authenticated uid =>
      if uid != 1 then ⟨db, identity, [], .Forbidden 403⟩ else f uid

/-- The show_post handler on POST (src/main.py lines 150-168): look the post
up by primary key; when the comment form validates, an anonymous caller is
flashed and redirected to login, otherwise a Comment is built from the form
text, the current user, and the looked-up post (which may be absent, leaving
the post reference null) and committed; then the post page renders. -/
def show_post (db : DB) (identity : Identity) (index : Nat)
    (formValid : Bool) (comment_body : String) : HandlerResult :=
  let requested_post := db.posts.find? (fun p => p.id == index)
  if formValid then
    match identity with
    | .Anonymous =>
        ⟨db, identity, ["You need to login or register before commenting."],
          .Redirect "login"⟩
    | .Authenticated uid =>
        let new_comment : Comment :=
          ⟨nextId (db.comments.map (fun c => c.id)), some uid,
            requested_post.map (fun p => p.id), comment_body⟩
        ⟨{ db with comments := db.comments ++ [new_comment] }, identity, [],
          .Render "post.html"⟩
  else
    ⟨db, identity, [], .Render "post.html"⟩

/-- The register handler on POST (src/main.py lines 172-201): when the form
validates, a fresh email gets a new user with a hashed password and a
redirect home; an already-registered email gets a flash and a redirect to
login; an invalid form re-renders. -/
def register (db : DB) (identity : Identity) (formValid : Bool)
    (email password name salt : String) : HandlerResult :=
  if formValid then
    match findUserByEmail db email with
    | none =>
        let hashed_password := generate_password_hash salt password
        let new_user : User :=
          ⟨nextId (db.users.map (fun u => u.id)), email, hashed_password, name⟩
        ⟨{ db with users := db.users ++ [new_user] }, identity, [],
          .Redirect "get_all_posts"⟩
    | some _ =>
        ⟨db, identity,
          ["You\x27ve already signed up with that email, please login."],
          .Redirect "login"⟩
  else
    ⟨db, identity, [], .Render "register.html"⟩

/-- The login handler on POST (src/main.py lines 204-229): when the form
validates, an unknown email flashes and redirects back to login, a wrong
password flashes and redirects back to login, and a correct password logs
the user in and redirects home; an invalid form re-renders. -/
def login (db : DB) (identity : Identity) (formValid : Bool)
    (email password : String) : HandlerResult :=
  if formValid then
    match findUserByEmail db email with
    | some user =>
        if check_password_hash user.password password then
          ⟨db, .Authenticated user.id, [], .Redirect "get_all_posts"⟩
        else
          ⟨db, identity, ["Incorrect password, try again."], .Redirect "login"⟩
    | none =>
        ⟨db, identity, ["That email doesn\x27t exist, please try again."],
          .Redirect "login"⟩
  else
    ⟨db, identity, [], .Render "login.html"⟩

/-- The logout handler (src/main.py lines 232-235). -/
def logout (db : DB) (identity : Identity) : HandlerResult :=
  ⟨db, .Anonymous, [], .Redirect "get_all_posts"⟩

/-- Committing a new BlogPost row: the unique constraint on title
(src/main.py line 52) makes the commit raise an IntegrityError when the
title is already taken. -/
def insertPost (db : DB) (p : BlogPost) : Except String DB :=
  if db.posts.any (fun q => q.title == p.title) then
    .error "IntegrityError: UNIQUE constraint failed: blog_posts.title"
  else
    .ok { db with posts := db.posts ++ [p] }

/-- The new_post handler (src/main.py lines 240-265), wrapped in admin_only:
when the form validates, a BlogPost is built from the form fields, the
current user, and the current date, and committed; the handler has no
exception handling, so an IntegrityError from the duplicate-title constraint
propagates unhandled. -/
def new_post (db : DB) (identity : Identity) (requestUrl : String)
    (formValid : Bool)
    (title subtitle img_url body posted_date : String) : HandlerResult :=
  withAdminOnly db identity requestUrl (fun uid =>
    if formValid then
      let created_post : BlogPost :=
        ⟨nextId (db.posts.map (fun p => p.id)), some uid, title, subtitle,
          posted_date, body, img_url⟩
      match insertPost db created_post with
      | .ok db2 => ⟨db2, identity, [], .Redirect "get_all_posts"⟩
      | .error e => ⟨db, identity, [], .UnhandledError e⟩
    else
      ⟨db, identity, [], .Render "make-post.html"⟩)

/-- The edit_post handler (src/main.py lines 267-299), wrapped in
admin_only: the post is looked up by primary key (a missing post makes the
attribute access on None raise); when the form validates, title, subtitle,
image URL and body are overwritten from the form, the date is overwritten
with the current date, and the change is committed; id and author_id are
untouched. -/
def edit_post (db : DB) (identity : Identity) (requestUrl : String)
    (index : Nat) (formValid : Bool)
    (title subtitle img_url body posted_date : String) : HandlerResult :=
  withAdminOnly db identity requestUrl (fun _ =>
    match db.posts.find? (fun p => p.id == index) with
    | none =>
        ⟨db, identity, [], .UnhandledError "AttributeError: NoneType has no attribute title"⟩
    | some _ =>
        if formValid then
          ⟨{ db with posts := db.posts.map (fun p =>
              if p.id == index then
                { p with
                    title := title
                    subtitle := subtitle
                    date := posted_date
                    img_url := img_url
                    body := body }
              else p) }, identity, [], .Redirect "get_all_posts"⟩
        else
          ⟨db, identity, [], .Render "make-post.html"⟩)

/-- The delete_post handler (src/main.py lines 301-308), wrapped in
admin_only: the post is looked up by primary key (deleting None raises) and
deleted.  The comments relationship (src/main.py line 50) declares no delete
cascade and no passive_deletes, so at flush the SQLAlchemy unit of work
loads the comments attached to the deleted post and nulls out their
post_id: no comment row is deleted, but every comment that referenced the
post is de-associated from it. -/
def delete_post (db : DB) (identity : Identity) (requestUrl : String)
    (index : Nat) : HandlerResult :=
  withAdminOnly db identity requestUrl (fun _ =>
    match db.posts.find? (fun p => p.id == index) with
    | none =>
        ⟨db, identity, [], .UnhandledError "UnmappedInstanceError: NoneType is not mapped"⟩
    | some _ =>
        ⟨{ db with
            posts := db.posts.filter (fun p => !(p.id == index))
            comments := db.comments.map (fun c =>
              if c.post_id == some index then { c with post_id := none }
              else c) },
          identity, [], .Redirect "get_all_posts"⟩)

/-- The empty store, before any registration. -/
def emptyDB : DB := ⟨[], [], []⟩

/-- A store with a single post titled T1 and no users or comments. -/
def dupTitleDB : DB :=
  ⟨[], [⟨1, some 1, "T1", "S1", "May 01, 2020", "B1", "I1"⟩], []⟩

/-- A store with one registered user and no posts. -/
def noPostsDB : DB :=
  ⟨[⟨1, "a@x.com", generate_password_hash "s1" "pw1", "Ann"⟩], [], []⟩

/-- A store with one user, one post, and one comment attached to the post. -/
def postWithCommentDB : DB :=
  ⟨[⟨1, "a@x.com", generate_password_hash "s1" "pw1", "Ann"⟩],
   [⟨1, some 1, "T1", "S1", "May 01, 2020", "B1", "I1"⟩],
   [⟨1, some 1, some 1, "hi"⟩]⟩

-- ------------------------------------------------------------------
-- Helper lemmas
-- ------------------------------------------------------------------

/-- The admin_only decorator lets the handler body run as user 1 when the
identity is the authenticated admin. -/
lemma withAdminOnly_admin (db : DB) (requestUrl : String)
    (f : Nat → HandlerResult) :
    withAdminOnly db (.Authenticated 1) requestUrl f = f 1 := rfl

/-- The modelled keyed derivation is injective in the password for a fixed
salt (the collision-freeness assumption of the credential store). -/
lemma kdf_inj {salt p q : String} (h : kdf salt p = kdf salt q) : p = q := by
  unfold kdf at h
  have h2 : ((salt ++ ":") ++ p).data = ((salt ++ ":") ++ q).data :=
    congrArg String.data h
  rw [String.data_append, String.data_append] at h2
  exact String.ext (List.append_inj_right h2 rfl)

/-- The serialized stored hash is strictly longer than the password it was
derived from, hence never equal to it. -/
lemma render_ne_password (salt password : String) :
    (generate_password_hash salt password).render ≠ password := by
  intro h
  have hlen := congrArg String.length h
  simp only [PwHash.render, generate_password_hash, kdf,
    String.length_append] at hlen
  have h13 : ("pbkdf2:sha256" : String).length = 13 := rfl
  have hd : ("$" : String).length = 1 := rfl
  have hc : (":" : String).length = 1 := rfl
  rw [h13, hd, hc] at hlen
  omega

/-- The digest component of a stored hash is also never the plaintext. -/
lemma digest_ne_password (salt password : String) :
    (generate_password_hash salt password).digest ≠ password := by
  intro h
  have hlen := congrArg String.length h
  simp only [generate_password_hash, kdf, String.length_append] at hlen
  have hc : (":" : String).length = 1 := rfl
  rw [hc] at hlen
  omega

-- ------------------------------------------------------------------
-- Theorems
-- ------------------------------------------------------------------

/-- Claim C1: the admin guard returns Allow iff the identity is the
authenticated user with the fixed admin id 1; DenyWithRedirect to login
carrying the requested URL iff the identity is Anonymous; and DenyForbidden
403 in every other case. -/
theorem admin_only_spec (identity : Identity) (requestUrl : String) :
    (admin_only identity requestUrl = .Allow ↔ identity = .Authenticated 1) ∧
    (admin_only identity requestUrl = .DenyWithRedirect "login" requestUrl ↔
      identity = .Anonymous) ∧
    (admin_only identity requestUrl = .DenyForbidden 403 ↔
      ∃ uid, identity = .Authenticated uid ∧ uid ≠ 1) := by
  cases identity with
  | Anonymous => simp [admin_only]
  | Authenticated uid =>
      by_cases h : uid = 1 <;> simp [admin_only, h]

/-- Claim C2: a POST of a validly-filled comment form while Anonymous leaves
the store unchanged (no Comment is created), flashes a notice, and redirects
to login. -/
theorem show_post_anonymous_no_comment (db : DB) (index : Nat)
    (comment_body : String) :
    (show_post db .Anonymous index true comment_body).db = db ∧
    (show_post db .Anonymous index true comment_body).response =
      .Redirect "login" ∧
    (show_post db .Anonymous index true comment_body).flashes =
      ["You need to login or register before commenting."] :=
  ⟨rfl, rfl, rfl⟩

/-- Claim C3: verification of the registration-time hash succeeds on the
original password and fails on every other password. -/
theorem credential_verify_spec (salt P Q : String) :
    check_password_hash (generate_password_hash salt P) P = true ∧
    (Q ≠ P → check_password_hash (generate_password_hash salt P) Q = false) := by
  constructor
  · simp [check_password_hash, generate_password_hash]
  · intro hne
    simp only [check_password_hash, generate_password_hash]
    rw [beq_eq_false_iff_ne]
    intro heq
    exact hne (kdf_inj heq).symm

/-- Witness for C3 at a concrete salt and password pair. -/
theorem credential_verify_spec_witness :
    check_password_hash (generate_password_hash "abcd1234" "pw1") "pw1" = true ∧
    check_password_hash (generate_password_hash "abcd1234" "pw1") "pw2" = false :=
  ⟨(credential_verify_spec "abcd1234" "pw1" "pw2").1,
   (credential_verify_spec "abcd1234" "pw1" "pw2").2 (by decide)⟩

/-- Claim C4: registering with a fresh email succeeds (redirect home), a
subsequent lookup of that email finds a record with the submitted email and
name, and the stored password — both its serialized form and its digest —
differs from the submitted plaintext. -/
theorem register_fresh_email (db : DB) (identity : Identity)
    (email password name salt : String)
    (hfresh : findUserByEmail db email = none) :
    (register db identity true email password name salt).response =
      .Redirect "get_all_posts" ∧
    ∃ u, findUserByEmail
        (register db identity true email password name salt).db email =
          some u ∧
      u.email = email ∧ u.name = name ∧
      u.password.render ≠ password ∧ u.password.digest ≠ password := by
  have hred : register db identity true email password name salt =
      ⟨{ db with users := db.users ++ [⟨nextId (db.users.map fun u => u.id),
          email, generate_password_hash salt password, name⟩] },
        identity, [], .Redirect "get_all_posts"⟩ := by
    simp [register, hfresh]
  rw [hred]
  refine ⟨rfl, ?_⟩
  refine ⟨⟨nextId (db.users.map fun u => u.id), email,
    generate_password_hash salt password, name⟩, ?_, rfl, rfl,
    render_ne_password salt password, digest_ne_password salt password⟩
  simp only [findUserByEmail] at hfresh ⊢
  simp [List.find?_append, hfresh, List.find?]

/-- Witness for C4: registering the first user in the empty store. -/
theorem register_fresh_email_witness :
    findUserByEmail emptyDB "a@x.com" = none ∧
    ((register emptyDB .Anonymous true "a@x.com" "pw1" "Ann" "s1").response =
      .Redirect "get_all_posts" ∧
     ∃ u, findUserByEmail
        (register emptyDB .Anonymous true "a@x.com" "pw1" "Ann" "s1").db
          "a@x.com" = some u ∧
      u.email = "a@x.com" ∧ u.name = "Ann" ∧
      u.password.render ≠ "pw1" ∧ u.password.digest ≠ "pw1") :=
  ⟨rfl, register_fresh_email emptyDB .Anonymous "a@x.com" "pw1" "Ann" "s1" rfl⟩

/-- Claim C5: registering an email that some existing user already has
leaves the store unchanged, flashes the already-signed-up notice, and
redirects to login; no second record is created. -/
theorem register_duplicate_email (db : DB) (identity : Identity)
    (email password name salt : String)
    (hdup : ∃ u ∈ db.users, u.email = email) :
    (register db identity true email password name salt).db = db ∧
    (register db identity true email password name salt).response =
      .Redirect "login" ∧
    (register db identity true email password name salt).flashes =
      ["You\x27ve already signed up with that email, please login."] := by
  obtain ⟨u, hu, hue⟩ := hdup
  have hsome : (db.users.find? (fun v => v.email == email)).isSome := by
    rw [List.find?_isSome]
    exact ⟨u, hu, by simp [hue]⟩
  obtain ⟨v, hv⟩ := Option.isSome_iff_exists.mp hsome
  simp [register, findUserByEmail, hv]

/-- Witness for C5: re-registering the email of the one existing user. -/
theorem register_duplicate_email_witness :
    (∃ u ∈ (DB.mk [⟨1, "a@x.com", generate_password_hash "s1" "pw1", "Ann"⟩]
        [] []).users, u.email = "a@x.com") ∧
    ((register (DB.mk [⟨1, "a@x.com", generate_password_hash "s1" "pw1", "Ann"⟩]
        [] []) .Anonymous true "a@x.com" "pw2" "Bob" "s2").db =
      DB.mk [⟨1, "a@x.com", generate_password_hash "s1" "pw1", "Ann"⟩] [] [] ∧
     (register (DB.mk [⟨1, "a@x.com", generate_password_hash "s1" "pw1", "Ann"⟩]
        [] []) .Anonymous true "a@x.com" "pw2" "Bob" "s2").response =
      .Redirect "login" ∧
     (register (DB.mk [⟨1, "a@x.com", generate_password_hash "s1" "pw1", "Ann"⟩]
        [] []) .Anonymous true "a@x.com" "pw2" "Bob" "s2").flashes =
      ["You\x27ve already signed up with that email, please login."]) :=
  ⟨⟨⟨1, "a@x.com", generate_password_hash "s1" "pw1", "Ann"⟩, by simp, rfl⟩,
   register_duplicate_email
     (DB.mk [⟨1, "a@x.com", generate_password_hash "s1" "pw1", "Ann"⟩] [] [])
     .Anonymous "a@x.com" "pw2" "Bob" "s2"
     ⟨⟨1, "a@x.com", generate_password_hash "s1" "pw1", "Ann"⟩, by simp, rfl⟩⟩

/-- Claim C6 counterexample: an admin creating a post whose title T1 is
already taken does not get a flash message or a re-render — the handler sets
no flash and the response is the unhandled IntegrityError from the unique
constraint (no new Post is added). -/
theorem new_post_duplicate_title_counterexample :
    (new_post dupTitleDB (.Authenticated 1) "/new-post" true
      "T1" "S2" "I2" "B2" "June 02, 2020").flashes = [] ∧
    (new_post dupTitleDB (.Authenticated 1) "/new-post" true
      "T1" "S2" "I2" "B2" "June 02, 2020").response =
      .UnhandledError "IntegrityError: UNIQUE constraint failed: blog_posts.title" ∧
    (new_post dupTitleDB (.Authenticated 1) "/new-post" true
      "T1" "S2" "I2" "B2" "June 02, 2020").db = dupTitleDB :=
  ⟨rfl, rfl, rfl⟩

/-- Claim C6 amended: creating a post whose title collides with an existing
post adds no new Post record, but the failure is an unhandled database
IntegrityError that propagates as a request failure — no flash message is
set and the request is not re-rendered. -/
theorem new_post_duplicate_title_unhandled (db : DB) (requestUrl : String)
    (title subtitle img_url body posted_date : String)
    (hdup : ∃ p ∈ db.posts, p.title = title) :
    (new_post db (.Authenticated 1) requestUrl true
      title subtitle img_url body posted_date).db = db ∧
    (new_post db (.Authenticated 1) requestUrl true
      title subtitle img_url body posted_date).flashes = [] ∧
    (new_post db (.Authenticated 1) requestUrl true
      title subtitle img_url body posted_date).response =
      .UnhandledError "IntegrityError: UNIQUE constraint failed: blog_posts.title" := by
  have hany : db.posts.any (fun q => q.title == title) = true := by
    rw [List.any_eq_true]
    obtain ⟨p, hp, hpt⟩ := hdup
    exact ⟨p, hp, by simp [hpt]⟩
  simp [new_post, withAdminOnly, insertPost, hany]

/-- Witness for the amended C6 at the store already holding a post T1. -/
theorem new_post_duplicate_title_unhandled_witness :
    (∃ p ∈ dupTitleDB.posts, p.title = "T1") ∧
    ((new_post dupTitleDB (.Authenticated 1) "/new-post" true
       "T1" "S2" "I2" "B2" "June 02, 2020").db = dupTitleDB ∧
     (new_post dupTitleDB (.Authenticated 1) "/new-post" true
       "T1" "S2" "I2" "B2" "June 02, 2020").flashes = [] ∧
     (new_post dupTitleDB (.Authenticated 1) "/new-post" true
       "T1" "S2" "I2" "B2" "June 02, 2020").response =
      .UnhandledError "IntegrityError: UNIQUE constraint failed: blog_posts.title") :=
  ⟨⟨⟨1, some 1, "T1", "S1", "May 01, 2020", "B1", "I1"⟩, by simp [dupTitleDB], rfl⟩,
   new_post_duplicate_title_unhandled dupTitleDB "/new-post"
     "T1" "S2" "I2" "B2" "June 02, 2020"
     ⟨⟨1, some 1, "T1", "S1", "May 01, 2020", "B1", "I1"⟩, by simp [dupTitleDB], rfl⟩⟩

/-- Claim C7 counterexample: an authenticated user submitting a valid
comment to post id 5, which does not exist, gets no NotFound — a Comment
record IS created (with a null post reference) and the post page renders. -/
theorem add_comment_missing_post_counterexample :
    (show_post noPostsDB (.Authenticated 1) 5 true "hi").db.comments =
      [⟨1, some 1, none, "hi"⟩] ∧
    (show_post noPostsDB (.Authenticated 1) 5 true "hi").response =
      .Render "post.html" :=
  ⟨rfl, rfl⟩

/-- Claim C7 amended: when an authenticated user submits a valid comment for
a post id with no Post record, the handler does not return NotFound — it
commits a Comment whose post reference is null and renders the post page. -/
theorem add_comment_missing_post (db : DB) (uid index : Nat) (text : String)
    (hmissing : db.posts.find? (fun p => p.id == index) = none) :
    (show_post db (.Authenticated uid) index true text).db.comments =
      db.comments ++
        [⟨nextId (db.comments.map fun c => c.id), some uid, none, text⟩] ∧
    (show_post db (.Authenticated uid) index true text).response =
      .Render "post.html" := by
  simp [show_post, hmissing]

/-- Witness for the amended C7 in the store with a user and no posts. -/
theorem add_comment_missing_post_witness :
    noPostsDB.posts.find? (fun p => p.id == 5) = none ∧
    ((show_post noPostsDB (.Authenticated 1) 5 true "hi").db.comments =
      noPostsDB.comments ++
        [⟨nextId (noPostsDB.comments.map fun c => c.id), some 1, none, "hi"⟩] ∧
     (show_post noPostsDB (.Authenticated 1) 5 true "hi").response =
      .Render "post.html") :=
  ⟨rfl, add_comment_missing_post noPostsDB 1 5 "hi" rfl⟩

/-- Claim C8: a failed login from the Anonymous state leaves the state
Anonymous; any login either leaves the identity unchanged or, exactly when
a stored user matches the email and the password verifies, moves it to
Authenticated with that user id; and logout always yields Anonymous. -/
theorem login_state_machine (db : DB) (identity : Identity) (formValid : Bool)
    (email password : String) :
    ((∀ u, findUserByEmail db email = some u →
        check_password_hash u.password password = false) →
      (login db .Anonymous formValid email password).identity = .Anonymous) ∧
    ((login db identity formValid email password).identity = identity ∨
      ∃ u, findUserByEmail db email = some u ∧
        check_password_hash u.password password = true ∧
        (login db identity formValid email password).identity =
          .Authenticated u.id) ∧
    (logout db identity).identity = .Anonymous := by
  refine ⟨?_, ?_, rfl⟩
  · intro hfail
    cases formValid with
    | false => rfl
    | true =>
        cases hfind : findUserByEmail db email with
        | none => simp [login, hfind]
        | some u => simp [login, hfind, hfail u hfind]
  · cases formValid with
    | false => exact Or.inl rfl
    | true =>
        cases hfind : findUserByEmail db email with
        | none => exact Or.inl (by simp [login, hfind])
        | some u =>
            cases hchk : check_password_hash u.password password with
            | false => exact Or.inl (by simp [login, hfind, hchk])
            | true =>
                exact Or.inr ⟨u, rfl, hchk, by simp [login, hfind, hchk]⟩

/-- Witness for C8: a login against the empty store fails and stays
Anonymous, and logout from an authenticated session yields Anonymous. -/
theorem login_state_machine_witness :
    (login emptyDB .Anonymous true "a@x.com" "pw").identity = .Anonymous ∧
    (logout emptyDB (.Authenticated 1)).identity = .Anonymous :=
  ⟨(login_state_machine emptyDB (.Authenticated 1) true "a@x.com" "pw").1
      (fun _ h => nomatch h),
   (login_state_machine emptyDB (.Authenticated 1) true "a@x.com" "pw").2.2⟩

/-- Claim C9 counterexample: deleting the one post of a store whose single
comment is attached to it does not leave the comment store unchanged — the
surviving comment has its post reference nulled out, so it no longer holds
a post_id referencing the now-missing post. -/
theorem delete_post_comment_nulled_counterexample :
    (delete_post postWithCommentDB (.Authenticated 1) "/delete/1" 1).db.comments =
      [⟨1, some 1, none, "hi"⟩] ∧
    postWithCommentDB.comments = [⟨1, some 1, some 1, "hi"⟩] ∧
    (delete_post postWithCommentDB (.Authenticated 1) "/delete/1" 1).db.comments ≠
      postWithCommentDB.comments :=
  ⟨rfl, rfl, by decide⟩

/-- Claim C9 amended: the admin deleting an existing post removes the Post
record and deletes no Comment record — the comment count is preserved,
comments not attached to the post survive verbatim, and each attached
comment survives with its id, author and text — but the attached comments
do not keep referencing the missing post: their post_id is nulled out at
flush, so afterwards no comment references the deleted id; users are
untouched and the handler redirects home. -/
theorem delete_post_nulls_comment_refs (db : DB) (requestUrl : String)
    (index : Nat) (hpost : ∃ p ∈ db.posts, p.id = index) :
    (delete_post db (.Authenticated 1) requestUrl index).db.users =
      db.users ∧
    (∀ q ∈ (delete_post db (.Authenticated 1) requestUrl index).db.posts,
      q.id ≠ index) ∧
    (∀ q ∈ db.posts, q.id ≠ index →
      q ∈ (delete_post db (.Authenticated 1) requestUrl index).db.posts) ∧
    (delete_post db (.Authenticated 1) requestUrl index).db.comments.length =
      db.comments.length ∧
    (∀ c ∈ db.comments, c.post_id ≠ some index →
      c ∈ (delete_post db (.Authenticated 1) requestUrl index).db.comments) ∧
    (∀ c ∈ db.comments, c.post_id = some index →
      (⟨c.id, c.author_id, none, c.text⟩ : Comment) ∈
        (delete_post db (.Authenticated 1) requestUrl index).db.comments) ∧
    (∀ c ∈ (delete_post db (.Authenticated 1) requestUrl index).db.comments,
      c.post_id ≠ some index) ∧
    (delete_post db (.Authenticated 1) requestUrl index).response =
      .Redirect "get_all_posts" := by
  have hsome : (db.posts.find? (fun p => p.id == index)).isSome := by
    rw [List.find?_isSome]
    obtain ⟨p, hp, hpi⟩ := hpost
    exact ⟨p, hp, by simp [hpi]⟩
  obtain ⟨p0, hp0⟩ := Option.isSome_iff_exists.mp hsome
  refine ⟨?_, ?_, ?_, ?_, ?_, ?_, ?_, ?_⟩
  · simp [delete_post, withAdminOnly, hp0]
  · intro q hq
    simp [delete_post, withAdminOnly, hp0, List.mem_filter] at hq
    exact hq.2
  · intro q hq hne
    simp [delete_post, withAdminOnly, hp0, List.mem_filter]
    exact ⟨hq, hne⟩
  · simp [delete_post, withAdminOnly, hp0]
  · intro c hc hne
    simp only [delete_post, withAdminOnly, hp0, withAdminOnly_admin]
    refine List.mem_map.mpr ⟨c, hc, ?_⟩
    simp [hne]
  · intro c hc heq
    simp only [delete_post, withAdminOnly, hp0, withAdminOnly_admin]
    refine List.mem_map.mpr ⟨c, hc, ?_⟩
    simp [heq]
  · intro c hc
    simp only [delete_post, withAdminOnly, hp0, withAdminOnly_admin] at hc
    obtain ⟨a, ha, rfl⟩ := List.mem_map.mp hc
    by_cases h : a.post_id = some index <;> simp [h]
  · simp [delete_post, withAdminOnly, hp0]

/-- Witness for the amended C9 at the store with one post and one attached
comment. -/
theorem delete_post_nulls_comment_refs_witness :
    (∃ p ∈ postWithCommentDB.posts, p.id = 1) ∧
    ((delete_post postWithCommentDB (.Authenticated 1) "/delete/1" 1).db.users =
      postWithCommentDB.users ∧
     (∀ q ∈ (delete_post postWithCommentDB (.Authenticated 1) "/delete/1" 1).db.posts,
       q.id ≠ 1) ∧
     (∀ q ∈ postWithCommentDB.posts, q.id ≠ 1 →
       q ∈ (delete_post postWithCommentDB (.Authenticated 1) "/delete/1" 1).db.posts) ∧
     (delete_post postWithCommentDB (.Authenticated 1) "/delete/1" 1).db.comments.length =
      postWithCommentDB.comments.length ∧
     (∀ c ∈ postWithCommentDB.comments, c.post_id ≠ some 1 →
       c ∈ (delete_post postWithCommentDB (.Authenticated 1) "/delete/1" 1).db.comments) ∧
     (∀ c ∈ postWithCommentDB.comments, c.post_id = some 1 →
       (⟨c.id, c.author_id, none, c.text⟩ : Comment) ∈
         (delete_post postWithCommentDB (.Authenticated 1) "/delete/1" 1).db.comments) ∧
     (∀ c ∈ (delete_post postWithCommentDB (.Authenticated 1) "/delete/1" 1).db.comments,
       c.post_id ≠ some 1) ∧
     (delete_post postWithCommentDB (.Authenticated 1) "/delete/1" 1).response =
      .Redirect "get_all_posts") :=
  ⟨⟨⟨1, some 1, "T1", "S1", "May 01, 2020", "B1", "I1"⟩,
      by simp [postWithCommentDB], rfl⟩,
   delete_post_nulls_comment_refs postWithCommentDB "/delete/1" 1
     ⟨⟨1, some 1, "T1", "S1", "May 01, 2020", "B1", "I1"⟩,
       by simp [postWithCommentDB], rfl⟩⟩

/-- Claim C10: a successful edit of an existing post replaces its title,
subtitle, image URL and body with the submitted fields, overwrites its date
with the date of the edit, keeps its id and author reference, leaves users
and comments untouched, and redirects home. -/
theorem edit_post_spec (db : DB) (requestUrl : String) (index : Nat)
    (title subtitle img_url body posted_date : String) (p : BlogPost)
    (hfind : db.posts.find? (fun q => q.id == index) = some p) :
    (edit_post db (.Authenticated 1) requestUrl index true
        title subtitle img_url body posted_date).db.posts.find?
        (fun q => q.id == index) =
      some ⟨p.id, p.author_id, title, subtitle, posted_date, body, img_url⟩ ∧
    (edit_post db (.Authenticated 1) requestUrl index true
      title subtitle img_url body posted_date).db.comments = db.comments ∧
    (edit_post db (.Authenticated 1) requestUrl index true
      title subtitle img_url body posted_date).db.users = db.users ∧
    (edit_post db (.Authenticated 1) requestUrl index true
      title subtitle img_url body posted_date).response =
      .Redirect "get_all_posts" := by
  have hp0 := List.find?_some hfind
  have hp : p.id = index := by
    have hp1 : (p.id == index) = true := hp0
    simpa using hp1
  refine ⟨?_, ?_, ?_, ?_⟩
  · simp only [edit_post, withAdminOnly_admin, hfind, if_true]
    rw [List.find?_map]
    have hpred : ((fun q => q.id == index) ∘ (fun q : BlogPost =>
        if q.id == index then
          { q with
              title := title
              subtitle := subtitle
              date := posted_date
              img_url := img_url
              body := body }
        else q)) = (fun q : BlogPost => q.id == index) := by
      funext q
      by_cases h : q.id = index <;> simp [h]
    rw [hpred, hfind]
    simp [hp]
  · simp [edit_post, withAdminOnly, hfind]
  · simp [edit_post, withAdminOnly, hfind]
  · simp [edit_post, withAdminOnly, hfind]

/-- Witness for C10: editing the one post of the T1 store. -/
theorem edit_post_spec_witness :
    dupTitleDB.posts.find? (fun q => q.id == 1) =
      some ⟨1, some 1, "T1", "S1", "May 01, 2020", "B1", "I1"⟩ ∧
    ((edit_post dupTitleDB (.Authenticated 1) "/edit-post/1" 1 true
        "T2" "S2" "I2" "B2" "June 02, 2020").db.posts.find?
        (fun q => q.id == 1) =
      some ⟨1, some 1, "T2", "S2", "June 02, 2020", "B2", "I2"⟩ ∧
     (edit_post dupTitleDB (.Authenticated 1) "/edit-post/1" 1 true
       "T2" "S2" "I2" "B2" "June 02, 2020").db.comments = dupTitleDB.comments ∧
     (edit_post dupTitleDB (.Authenticated 1) "/edit-post/1" 1 true
       "T2" "S2" "I2" "B2" "June 02, 2020").db.users = dupTitleDB.users ∧
     (edit_post dupTitleDB (.Authenticated 1) "/edit-post/1" 1 true
       "T2" "S2" "I2" "B2" "June 02, 2020").response =
      .Redirect "get_all_posts") :=
  ⟨rfl, edit_post_spec dupTitleDB "/edit-post/1" 1
     "T2" "S2" "I2" "B2" "June 02, 2020"
     ⟨1, some 1, "T1", "S1", "May 01, 2020", "B1", "I1"⟩ rfl⟩

end RestBlog
